import Mathlib

/-!
Shallow embedding of the configuration-resolution, validation, subnet-topology
and tag-merge logic of the aws-cdk-patterns repository
(src/aws_cdk_patterns/network/vpc.py and src/aws_cdk_patterns/compute/ec2.py).

Python `**kwargs` dictionaries are modelled as association lists from key
strings to a `Value` type covering the Python values the code manipulates.
`ipaddress.ip_network` (the external standard-library CIDR parser that
`CustomVpcPattern._is_valid_cidr` delegates to) is kept abstract: every
definition and theorem that needs it is parametrised by a validity predicate
`is_valid_cidr : Value → Bool`, since the repository's own logic only branches
on its boolean outcome.

Resource-creation calls into the external CDK provisioning API (`ec2.Vpc`,
`ec2.SecurityGroup`, `iam.Role`, `CfnOutput`, `Tags.of(...).add`) are recorded
as an explicit event trace, so that "no resource was requested" is statable.
-/

namespace AwsCdkPatterns

/-- Model of `ec2.InstanceClass` (only the classes the code mentions, plus a
spare constructor so caller overrides can range over something). -/
inductive InstanceClass
  | T3
  | M5
deriving DecidableEq

/-- Model of `ec2.InstanceSize`. -/
inductive InstanceSize
  | MICRO
  | SMALL
  | MEDIUM
  | LARGE
deriving DecidableEq

/-- Model of `ec2.AmazonLinuxGeneration`. -/
inductive AmazonLinuxGeneration
  | AMAZON_LINUX
  | AMAZON_LINUX_2
  | AMAZON_LINUX_2022
deriving DecidableEq

/-- Model of `ec2.IMachineImage` implementations: `ec2.AmazonLinuxImage(generation=...)`
and any other machine image object. -/
inductive MachineImg
  | amazonLinux (generation : AmazonLinuxGeneration)
  | custom (name : String)
deriving DecidableEq

/-- Model of `ec2.SubnetType`. -/
inductive SubnetType
  | PUBLIC
  | PRIVATE_WITH_EGRESS
  | PRIVATE_ISOLATED
deriving DecidableEq

/-- Untyped Python values that can appear in the `**kwargs` dictionaries the
patterns receive: strings, ints, bools, string-to-string dicts (for `tags`),
and the CDK objects used as overrides (`ec2.InstanceType.of(cls, size)`,
machine images, subnet types). -/
inductive Value
  | str (s : String)
  | int (n : Int)
  | bool (b : Bool)
  | strMap (entries : List (String × String))
  | instanceType (cls : InstanceClass) (size : InstanceSize)
  | machineImage (img : MachineImg)
  | subnetType (t : SubnetType)
deriving DecidableEq

/-- First-match association-list lookup: the semantics of indexing a Python
dict rendered as an association list (Python dicts have unique keys, so first
match is the match). -/
def lookup? {β : Type} : List (String × β) → String → Option β
  | [], _ => none
  | (k0, v) :: rest, k => if k = k0 then some v else lookup? rest k

/-- A `**kwargs` dictionary. -/
abbrev Kwargs := List (String × Value)

/-- Python `kwargs.get(key, default)`. -/
def dictGet (kwargs : Kwargs) (key : String) (default : Value) : Value :=
  (lookup? kwargs key).getD default

/-- Python truthiness of a `Value`, as used by `if kwargs.get(...)` and
`not self.config[...]`. -/
def truthy : Value → Bool
  | .str s => !(s == "")
  | .int n => !(n == 0)
  | .bool b => b
  | .strMap [] => false
  | .strMap (_ :: _) => true
  | .instanceType _ _ => true
  | .machineImage _ => true
  | .subnetType _ => true

/-- Python `self.node.try_get_context(key) or default`: the context value when
it is set and truthy (a non-empty string), else the default. -/
def contextOrDefault (ctx : Option String) (default : String) : String :=
  match ctx with
  | some s => if s == "" then default else s
  | none => default

/-- The errors the embedded code can raise. The first four constructors are the
`ValueError`s (the spec's `ConfigurationError`) raised by
`CustomVpcPattern._init_config` / `_validate_config`; the next two are the
`ValueError`s of `EC2InstancePattern._validate_config`; `typeError` models the
`TypeError` Python raises when an untyped kwargs value meets an operation of
the wrong type (ordering a non-number, `**`-unpacking a non-mapping). -/
inductive Err
  | invalidCidr (cidr : Value)
  | maxAzsTooSmall
  | negativeNatGateways
  | natRequiresInternet
  | instanceTypeInvalid
  | machineImageInvalid
  | typeError
deriving DecidableEq

/-- Whether an `Except Err` computation succeeded. -/
def isOk {α : Type} : Except Err α → Bool
  | .ok _ => true
  | .error _ => false

/-- Python `v < n` for an untyped value against an int literal: ints compare
numerically, bools count as 0/1, anything else raises `TypeError`. -/
def valueLt (v : Value) (n : Int) : Except Err Bool :=
  match v with
  | .int m => .ok (decide (m < n))
  | .bool b => .ok (decide ((if b then (1 : Int) else 0) < n))
  | _ => .error .typeError

/-- Python `v > n` for an untyped value against an int literal. -/
def valueGt (v : Value) (n : Int) : Except Err Bool :=
  match v with
  | .int m => .ok (decide (n < m))
  | .bool b => .ok (decide (n < (if b then (1 : Int) else 0)))
  | _ => .error .typeError

/-- Python dict item assignment `d[key] = v` on an association list: replace
the value at an existing key in place, else append the new entry. This is the
elementary step of `{**a, **b}` unpacking. -/
def dictInsert {β : Type} : List (String × β) → String → β → List (String × β)
  | [], key, v => [(key, v)]
  | (k0, v0) :: rest, key, v =>
      if key = k0 then (k0, v) :: rest else (k0, v0) :: dictInsert rest key v

/-- Python `{**a, **b}`: start from `a` and assign every entry of `b` in
order, later entries overwriting earlier ones on key collision. -/
def mergeDicts {β : Type} (a b : List (String × β)) : List (String × β) :=
  b.foldl (fun acc p => dictInsert acc p.1 p.2) a

namespace CustomVpcPattern

/-- `CustomVpcPattern.DEFAULT_CIDR`. -/
def DEFAULT_CIDR : String := "10.0.0.0/16"

/-- `CustomVpcPattern.DEFAULT_MAX_AZS`. -/
def DEFAULT_MAX_AZS : Int := 2

/-- `CustomVpcPattern.DEFAULT_NAT_GATEWAYS`. -/
def DEFAULT_NAT_GATEWAYS : Int := 1

/-- `CustomVpcPattern.SUBNET_MASK`. -/
def SUBNET_MASK : Int := 24

/-- The dictionary returned by `CustomVpcPattern._init_config`. Field values
stay untyped (`Value`) exactly as in the Python dict. -/
structure Config where
  cidr : Value
  max_azs : Value
  enable_internet : Value
  nat_gateways : Value
  enable_ssm : Value
  enable_ec2_connect : Value
deriving DecidableEq

/-- `CustomVpcPattern._init_config`: reads the recognized keys out of
`kwargs`, validates the CIDR with the (abstract) parser, and forces the NAT
gateway count to 0 whenever `enable_internet` resolves falsy. -/
def init_config (is_valid_cidr : Value → Bool) (kwargs : Kwargs) : Except Err Config :=
  let cidr := dictGet kwargs "cidr" (.str DEFAULT_CIDR)
  if is_valid_cidr cidr then
    .ok
      { cidr := cidr
        max_azs := dictGet kwargs "max_azs" (.int DEFAULT_MAX_AZS)
        enable_internet := dictGet kwargs "enable_internet" (.bool true)
        nat_gateways :=
          if truthy (dictGet kwargs "enable_internet" (.bool true)) then
            dictGet kwargs "nat_gateways" (.int DEFAULT_NAT_GATEWAYS)
          else
            .int 0
        enable_ssm := dictGet kwargs "enable_ssm" (.bool true)
        enable_ec2_connect := dictGet kwargs "enable_ec2_connect" (.bool true) }
  else
    .error (.invalidCidr cidr)

/-- `CustomVpcPattern._validate_config`: `max_azs >= 1`, `nat_gateways >= 0`,
and `nat_gateways > 0` only with internet enabled (the checks run in source
order, with Python short-circuiting of `and`). -/
def validate_config (config : Config) : Except Err Unit :=
  match valueLt config.max_azs 1 with
  | .error e => .error e
  | .ok true => .error .maxAzsTooSmall
  | .ok false =>
    match valueLt config.nat_gateways 0 with
    | .error e => .error e
    | .ok true => .error .negativeNatGateways
    | .ok false =>
      match valueGt config.nat_gateways 0 with
      | .error e => .error e
      | .ok gt =>
        if gt && !(truthy config.enable_internet) then .error .natRequiresInternet
        else .ok ()

/-- One `ec2.SubnetConfiguration(name=..., subnet_type=..., cidr_mask=...)`. -/
structure SubnetConfiguration where
  name : String
  subnet_type : SubnetType
  cidr_mask : Int
deriving DecidableEq

/-- `CustomVpcPattern._get_subnet_configurations`: [Public, Private] when the
resolved `enable_internet` is truthy, else a single [Isolated], each with
`cidr_mask = SUBNET_MASK`. -/
def get_subnet_configurations (config : Config) : List SubnetConfiguration :=
  if truthy config.enable_internet then
    [ { name := "Public", subnet_type := .PUBLIC, cidr_mask := SUBNET_MASK },
      { name := "Private", subnet_type := .PRIVATE_WITH_EGRESS, cidr_mask := SUBNET_MASK } ]
  else
    [ { name := "Isolated", subnet_type := .PRIVATE_ISOLATED, cidr_mask := SUBNET_MASK } ]

/-- The resource-creation calls `CustomVpcPattern.__init__` makes into the
external CDK API, in order. -/
inductive Event
  | createVpc (cidr max_azs nat_gateways : Value) (subnets : List SubnetConfiguration)
  | createSsmEndpoints
  | createInstanceSecurityGroup (enable_ec2_connect : Bool)
  | createInstanceRole (enable_ec2_connect : Bool)
  | addTags (tags : List (String × String))
  | createOutputs
deriving DecidableEq

/-- The `default_tags` dictionary built inside `CustomVpcPattern._add_tags`,
in source order. -/
def default_tags (environment project : String) : List (String × String) :=
  [ ("Environment", environment), ("ManagedBy", "CDK"),
    ("Pattern", "CustomVpcPattern"), ("Project", project) ]

/-- The observable state of a fully constructed `CustomVpcPattern`. -/
structure State where
  environment : String
  config : Config
  events : List Event
deriving DecidableEq

/-- `CustomVpcPattern.__init__`: resolve the environment context, build and
validate the configuration, then issue the resource-creation calls (VPC, SSM
endpoints when enabled, instance security group, instance role, tags,
outputs). Returns the event trace together with the outcome; a configuration
failure happens before any event is recorded. -/
def construct (is_valid_cidr : Value → Bool) (environment_ctx project_ctx : Option String)
    (kwargs : Kwargs) : List Event × Except Err State :=
  let environment := contextOrDefault environment_ctx "development"
  match init_config is_valid_cidr kwargs with
  | .error e => ([], .error e)
  | .ok config =>
    match validate_config config with
    | .error e => ([], .error e)
    | .ok _ =>
      let ev1 : List Event :=
        [Event.createVpc config.cidr config.max_azs config.nat_gateways
          (get_subnet_configurations config)]
      let ev2 := if truthy config.enable_ssm then ev1 ++ [Event.createSsmEndpoints] else ev1
      let ev3 := ev2 ++
        [Event.createInstanceSecurityGroup (truthy config.enable_ec2_connect),
         Event.createInstanceRole (truthy config.enable_ec2_connect)]
      match dictGet kwargs "tags" (.strMap []) with
      | .strMap additional =>
        let tags :=
          mergeDicts (default_tags environment (contextOrDefault project_ctx "default"))
            additional
        let ev4 := ev3 ++ [Event.addTags tags, Event.createOutputs]
        (ev4, .ok { environment := environment, config := config, events := ev4 })
      | _ => (ev3, .error .typeError)

/-- The kwargs keys `CustomVpcPattern` reads (everything else is ignored). -/
def recognized_keys : List String :=
  ["cidr", "max_azs", "enable_internet", "nat_gateways", "enable_ssm",
   "enable_ec2_connect", "tags"]

end CustomVpcPattern

namespace EC2InstancePattern

/-- The dictionary returned by `EC2InstancePattern._init_config`.
`subnet_type` is `kwargs.get("subnet_type")`, so `none` when absent. -/
structure Config where
  instance_type : Value
  machine_image : Value
  subnet_type : Option Value
deriving DecidableEq

/-- The `"development"` entry of `base_config` in
`EC2InstancePattern._get_environment_config`. -/
def development_config : List (String × Value) :=
  [("instance_type", Value.instanceType .T3 .MICRO)]

/-- The `"production"` entry of `base_config`. -/
def production_config : List (String × Value) :=
  [("instance_type", Value.instanceType .T3 .SMALL)]

/-- The `base_config` table of `EC2InstancePattern._get_environment_config`. -/
def base_config : List (String × List (String × Value)) :=
  [("development", development_config), ("production", production_config)]

/-- `EC2InstancePattern._get_environment_config`:
`base_config.get(self.environment, base_config["development"])`. -/
def get_environment_config (environment : String) : List (String × Value) :=
  (lookup? base_config environment).getD development_config

/-- `EC2InstancePattern._init_config`. -/
def init_config (environment : String) (kwargs : Kwargs) : Config :=
  let env_config := get_environment_config environment
  { instance_type :=
      dictGet kwargs "instance_type"
        (dictGet env_config "instance_type" (.instanceType .T3 .MICRO))
    machine_image :=
      dictGet kwargs "machine_image" (.machineImage (.amazonLinux .AMAZON_LINUX_2))
    subnet_type := lookup? kwargs "subnet_type" }

/-- `EC2InstancePattern._validate_config`: `isinstance` checks on the resolved
instance type and machine image. -/
def validate_config (config : Config) : Except Err Unit :=
  match config.instance_type with
  | .instanceType _ _ =>
    match config.machine_image with
    | .machineImage _ => .ok ()
    | _ => .error .machineImageInvalid
  | _ => .error .instanceTypeInvalid

/-- The observable state of a constructed `EC2InstancePattern` (its
`__init__` creates no resources; `create_instance` does that later). -/
structure State where
  environment : String
  config : Config
  additional_tags : Value
deriving DecidableEq

/-- `EC2InstancePattern.__init__`: resolve the environment context, build and
validate the configuration, store `kwargs.get("tags", {})`. -/
def construct (environment_ctx : Option String) (kwargs : Kwargs) : Except Err State :=
  let environment := contextOrDefault environment_ctx "development"
  let config := init_config environment kwargs
  match validate_config config with
  | .error e => .error e
  | .ok _ =>
    .ok { environment := environment, config := config,
          additional_tags := dictGet kwargs "tags" (.strMap []) }

/-- `EC2InstancePattern._generate_resource_name`. -/
def generate_resource_name (stack_name node_id resource_type : String) : String :=
  stack_name ++ "-" ++ node_id ++ "-" ++ resource_type

/-- The `default_tags` dictionary built inside
`EC2InstancePattern._add_instance_tags`, in source order. -/
def default_instance_tags (stack_name node_id environment project : String) :
    List (String × String) :=
  [ ("Name", generate_resource_name stack_name node_id "instance"),
    ("Environment", environment), ("ManagedBy", "CDK"),
    ("Pattern", "EC2InstancePattern"), ("Project", project) ]

/-- The merged tag dictionary
`{**default_tags, **self.additional_tags, **instance_tags}` applied to a
created instance by `EC2InstancePattern._add_instance_tags`. -/
def merged_instance_tags (stack_name node_id environment project : String)
    (additional_tags instance_tags : List (String × String)) : List (String × String) :=
  mergeDicts
    (mergeDicts (default_instance_tags stack_name node_id environment project)
      additional_tags)
    instance_tags

end EC2InstancePattern

/-- C2: if the caller explicitly supplied `enable_internet = False`, every
successfully resolved configuration has `nat_gateways = 0`, whatever
`nat_gateways` value (of whatever type) the caller supplied. -/
theorem internet_disabled_forces_zero_nat_gateways
    (is_valid_cidr : Value → Bool) (kwargs : Kwargs)
    (h : lookup? kwargs "enable_internet" = some (Value.bool false)) :
    ∀ config, CustomVpcPattern.init_config is_valid_cidr kwargs = .ok config →
      config.nat_gateways = Value.int 0 := by
  intro config hc
  simp only [CustomVpcPattern.init_config] at hc
  split at hc
  · simp only [Except.ok.injEq] at hc
    rw [← hc]
    simp [dictGet, h, truthy]
  · cases hc

/-- Witness for C2 at the concrete input
`{enable_internet: False, nat_gateways: 7}`. -/
theorem internet_disabled_forces_zero_nat_gateways_witness :
    (CustomVpcPattern.Config.mk (Value.str "10.0.0.0/16") (Value.int 2)
        (Value.bool false) (Value.int 0) (Value.bool true)
        (Value.bool true)).nat_gateways = Value.int 0 :=
  internet_disabled_forces_zero_nat_gateways (fun _ => true)
    [("enable_internet", Value.bool false), ("nat_gateways", Value.int 7)] rfl _ rfl

/-- C4: the derived subnet topology is a function of the resolved
internet-enabled flag alone: flag false gives exactly one `PRIVATE_ISOLATED`
subnet configuration, flag true gives exactly `[Public, Private-with-egress]`
in that order, and every produced subnet configuration has prefix length 24. -/
theorem subnet_topology_from_internet_flag (config : CustomVpcPattern.Config) :
    (config.enable_internet = Value.bool false →
       CustomVpcPattern.get_subnet_configurations config =
         [⟨"Isolated", SubnetType.PRIVATE_ISOLATED, 24⟩]) ∧
    (config.enable_internet = Value.bool true →
       CustomVpcPattern.get_subnet_configurations config =
         [⟨"Public", SubnetType.PUBLIC, 24⟩,
          ⟨"Private", SubnetType.PRIVATE_WITH_EGRESS, 24⟩]) ∧
    (∀ sc ∈ CustomVpcPattern.get_subnet_configurations config, sc.cidr_mask = 24) := by
  refine ⟨?_, ?_, ?_⟩
  · intro h
    simp [CustomVpcPattern.get_subnet_configurations, h, truthy,
      CustomVpcPattern.SUBNET_MASK]
  · intro h
    simp [CustomVpcPattern.get_subnet_configurations, h, truthy,
      CustomVpcPattern.SUBNET_MASK]
  · intro sc hsc
    unfold CustomVpcPattern.get_subnet_configurations at hsc
    split at hsc <;> simp_all [CustomVpcPattern.SUBNET_MASK]
    rcases hsc with rfl | rfl <;> rfl

/-- Witness for C4: both branches of the topology rule at concrete resolved
configurations. -/
theorem subnet_topology_from_internet_flag_witness :
    CustomVpcPattern.get_subnet_configurations
        ⟨Value.str "10.0.0.0/16", Value.int 2, Value.bool false, Value.int 0,
         Value.bool true, Value.bool true⟩ =
      [⟨"Isolated", SubnetType.PRIVATE_ISOLATED, 24⟩] ∧
    CustomVpcPattern.get_subnet_configurations
        ⟨Value.str "10.0.0.0/16", Value.int 2, Value.bool true, Value.int 1,
         Value.bool true, Value.bool true⟩ =
      [⟨"Public", SubnetType.PUBLIC, 24⟩,
       ⟨"Private", SubnetType.PRIVATE_WITH_EGRESS, 24⟩] :=
  ⟨(subnet_topology_from_internet_flag _).1 rfl,
   (subnet_topology_from_internet_flag _).2.1 rfl⟩

/-- C6 counterexample: with no overrides the resolved configuration has
`max_azs = 2` (`DEFAULT_MAX_AZS = 2` in the code), not 3 as the claim states;
the other defaults are as claimed. -/
theorem default_config_max_azs_not_three :
    CustomVpcPattern.init_config (fun _ => true) [] =
      Except.ok ⟨Value.str "10.0.0.0/16", Value.int 2, Value.bool true,
        Value.int 1, Value.bool true, Value.bool true⟩ ∧
    Value.int 2 ≠ Value.int 3 :=
  ⟨rfl, by decide⟩

/-- C6 amended: with no overrides (and any CIDR parser accepting the default
block) the resolved configuration is address block `"10.0.0.0/16"`, max-zone
count 2, internet enabled, and NAT-gateway count 1. -/
theorem resolved_default_config (is_valid_cidr : Value → Bool)
    (h : is_valid_cidr (Value.str "10.0.0.0/16") = true) :
    CustomVpcPattern.init_config is_valid_cidr [] =
      Except.ok ⟨Value.str "10.0.0.0/16", Value.int 2, Value.bool true,
        Value.int 1, Value.bool true, Value.bool true⟩ := by
  simp [CustomVpcPattern.init_config, dictGet, lookup?, truthy,
    CustomVpcPattern.DEFAULT_CIDR, CustomVpcPattern.DEFAULT_MAX_AZS,
    CustomVpcPattern.DEFAULT_NAT_GATEWAYS, h]

/-- Witness for C6's amended claim, with the parser accepting everything. -/
theorem resolved_default_config_witness :
    CustomVpcPattern.init_config (fun _ => true) [] =
      Except.ok ⟨Value.str "10.0.0.0/16", Value.int 2, Value.bool true,
        Value.int 1, Value.bool true, Value.bool true⟩ :=
  resolved_default_config (fun _ => true) rfl

/-- Helper: `valueLt` either raises `TypeError` or returns a boolean; it never
raises any other error. -/
theorem valueLt_cases (v : Value) (n : Int) :
    valueLt v n = .error Err.typeError ∨ ∃ b, valueLt v n = .ok b := by
  cases v
  case int => exact Or.inr ⟨_, rfl⟩
  case bool => exact Or.inr ⟨_, rfl⟩
  all_goals exact Or.inl rfl

/-- C1: construction gates on CIDR validity. When the caller-supplied
address-block string passes the (abstract) CIDR parser, configuration
initialization succeeds; when it fails the parser, construction fails with the
invalid-CIDR `ConfigurationError` and the event trace is empty — no VPC,
endpoint, security-group, role, tag or output request was recorded. -/
theorem cidr_validity_gates_construction
    (is_valid_cidr : Value → Bool) (environment_ctx project_ctx : Option String)
    (kwargs : Kwargs) (s : String)
    (hc : lookup? kwargs "cidr" = some (Value.str s)) :
    (is_valid_cidr (Value.str s) = true →
       isOk (CustomVpcPattern.init_config is_valid_cidr kwargs) = true) ∧
    (is_valid_cidr (Value.str s) = false →
       CustomVpcPattern.construct is_valid_cidr environment_ctx project_ctx kwargs =
         ([], Except.error (Err.invalidCidr (Value.str s)))) := by
  have hget : dictGet kwargs "cidr" (Value.str CustomVpcPattern.DEFAULT_CIDR) =
      Value.str s := by
    simp [dictGet, hc]
  constructor
  · intro hv
    simp [CustomVpcPattern.init_config, hget, hv, isOk]
  · intro hv
    have hinit : CustomVpcPattern.init_config is_valid_cidr kwargs =
        .error (.invalidCidr (Value.str s)) := by
      simp [CustomVpcPattern.init_config, hget, hv]
    simp [CustomVpcPattern.construct, hinit]

/-- Witness for C1: a well-formed override under a parser accepting exactly
it, and a malformed override under the same parser. -/
theorem cidr_validity_gates_construction_witness :
    isOk (CustomVpcPattern.init_config (fun v => v == Value.str "10.1.0.0/16")
        [("cidr", Value.str "10.1.0.0/16")]) = true ∧
    CustomVpcPattern.construct (fun v => v == Value.str "10.1.0.0/16") none none
        [("cidr", Value.str "not-a-cidr")] =
      ([], Except.error (Err.invalidCidr (Value.str "not-a-cidr"))) :=
  ⟨(cidr_validity_gates_construction (fun v => v == Value.str "10.1.0.0/16") none none
      [("cidr", Value.str "10.1.0.0/16")] "10.1.0.0/16" rfl).1 rfl,
   (cidr_validity_gates_construction (fun v => v == Value.str "10.1.0.0/16") none none
      [("cidr", Value.str "not-a-cidr")] "not-a-cidr" rfl).2 rfl⟩

/-- C3 counterexample: explicitly supplying `nat_gateways = 5` together with
`enable_internet = False` does not fail with a `ConfigurationError`:
construction succeeds, because `_init_config` silently forces the count to 0
before `_validate_config` looks at it. -/
theorem nat_override_internet_disabled_succeeds :
    isOk (CustomVpcPattern.construct (fun _ => true) none none
        [("nat_gateways", Value.int 5), ("enable_internet", Value.bool false)]).2 =
      true :=
  rfl

/-- C3 amended: explicitly supplying `nat_gateways > 0` with
`enable_internet = False` does not raise the NAT-requires-internet
`ConfigurationError`; instead the resolved NAT-gateway count is forced to 0,
so the NAT validation branch can never fire. -/
theorem nat_override_internet_disabled_forced_zero
    (is_valid_cidr : Value → Bool) (kwargs : Kwargs) (n : Int)
    (hi : lookup? kwargs "enable_internet" = some (Value.bool false))
    (_hn : lookup? kwargs "nat_gateways" = some (Value.int n)) (_hpos : 0 < n) :
    ∀ config, CustomVpcPattern.init_config is_valid_cidr kwargs = .ok config →
      config.nat_gateways = Value.int 0 ∧
      CustomVpcPattern.validate_config config ≠ .error Err.natRequiresInternet := by
  intro config hcfg
  have h0 : config.nat_gateways = Value.int 0 := by
    simp only [CustomVpcPattern.init_config] at hcfg
    split at hcfg
    · simp only [Except.ok.injEq] at hcfg
      rw [← hcfg]
      simp [dictGet, hi, truthy]
    · cases hcfg
  refine ⟨h0, ?_⟩
  unfold CustomVpcPattern.validate_config
  rcases valueLt_cases config.max_azs 1 with hlt | ⟨b, hlt⟩
  · simp [hlt]
  · cases b
    · rw [hlt, h0]
      simp [valueLt, valueGt]
    · simp [hlt]

/-- Witness for C3's amended claim at the concrete input
`{nat_gateways: 5, enable_internet: False}`. -/
theorem nat_override_internet_disabled_forced_zero_witness :
    (CustomVpcPattern.Config.mk (Value.str "10.0.0.0/16") (Value.int 2)
        (Value.bool false) (Value.int 0) (Value.bool true)
        (Value.bool true)).nat_gateways = Value.int 0 ∧
    CustomVpcPattern.validate_config
        ⟨Value.str "10.0.0.0/16", Value.int 2, Value.bool false, Value.int 0,
         Value.bool true, Value.bool true⟩ ≠ Except.error Err.natRequiresInternet :=
  nat_override_internet_disabled_forced_zero (fun _ => true)
    [("nat_gateways", Value.int 5), ("enable_internet", Value.bool false)] 5
    rfl rfl (by decide) _ rfl

/-- C7: the compute pattern's default instance class comes from the
environment-keyed table: "development" resolves to t3.micro, "production" to
t3.small, every other environment value falls back to the development
defaults, and an unset environment context resolves to "development". -/
theorem environment_instance_class_table (environment : String) (kwargs : Kwargs)
    (h : lookup? kwargs "instance_type" = none) :
    (EC2InstancePattern.init_config "development" kwargs).instance_type =
      Value.instanceType InstanceClass.T3 InstanceSize.MICRO ∧
    (EC2InstancePattern.init_config "production" kwargs).instance_type =
      Value.instanceType InstanceClass.T3 InstanceSize.SMALL ∧
    (environment ≠ "production" →
       (EC2InstancePattern.init_config environment kwargs).instance_type =
         Value.instanceType InstanceClass.T3 InstanceSize.MICRO) ∧
    contextOrDefault none "development" = "development" := by
  refine ⟨?_, ?_, ?_, rfl⟩
  · simp [EC2InstancePattern.init_config, EC2InstancePattern.get_environment_config,
      EC2InstancePattern.base_config, EC2InstancePattern.development_config,
      dictGet, h, lookup?]
  · simp [EC2InstancePattern.init_config, EC2InstancePattern.get_environment_config,
      EC2InstancePattern.base_config, EC2InstancePattern.production_config,
      dictGet, h, lookup?]
  · intro hne
    by_cases hd : environment = "development"
    · subst hd
      simp [EC2InstancePattern.init_config, EC2InstancePattern.get_environment_config,
        EC2InstancePattern.base_config, EC2InstancePattern.development_config,
        dictGet, h, lookup?]
    · simp [EC2InstancePattern.init_config, EC2InstancePattern.get_environment_config,
        EC2InstancePattern.base_config, EC2InstancePattern.development_config,
        dictGet, h, lookup?, hd, hne]

/-- Witness for C7: an unrecognized environment value resolves to the
development default instance class. -/
theorem environment_instance_class_table_witness :
    (EC2InstancePattern.init_config "staging" []).instance_type =
      Value.instanceType InstanceClass.T3 InstanceSize.MICRO :=
  (environment_instance_class_table "staging" [] rfl).2.2.1 (by decide)

/-- C10: the default machine image is Amazon Linux 2 for every environment
(the environment-keyed table only carries an instance type, so the image is
environment-independent unless overridden), and the default subnet kind is
absent. -/
theorem default_machine_image_environment_independent
    (environment : String) (kwargs : Kwargs)
    (hm : lookup? kwargs "machine_image" = none)
    (hs : lookup? kwargs "subnet_type" = none) :
    (EC2InstancePattern.init_config environment kwargs).machine_image =
      Value.machineImage (MachineImg.amazonLinux AmazonLinuxGeneration.AMAZON_LINUX_2) ∧
    (EC2InstancePattern.get_environment_config environment).map Prod.fst =
      ["instance_type"] ∧
    (EC2InstancePattern.init_config environment kwargs).subnet_type = none := by
  refine ⟨?_, ?_, ?_⟩
  · simp [EC2InstancePattern.init_config, dictGet, hm]
  · by_cases h1 : environment = "development"
    · simp [EC2InstancePattern.get_environment_config, EC2InstancePattern.base_config,
        EC2InstancePattern.development_config, lookup?, h1]
    · by_cases h2 : environment = "production"
      · simp [EC2InstancePattern.get_environment_config, EC2InstancePattern.base_config,
          EC2InstancePattern.production_config, lookup?, h1, h2]
      · simp [EC2InstancePattern.get_environment_config, EC2InstancePattern.base_config,
          EC2InstancePattern.development_config, lookup?, h1, h2]
  · simp [EC2InstancePattern.init_config, hs]

/-- Witness for C10 at the environment "staging" with no overrides. -/
theorem default_machine_image_environment_independent_witness :
    (EC2InstancePattern.init_config "staging" []).machine_image =
      Value.machineImage (MachineImg.amazonLinux AmazonLinuxGeneration.AMAZON_LINUX_2) ∧
    (EC2InstancePattern.get_environment_config "staging").map Prod.fst =
      ["instance_type"] ∧
    (EC2InstancePattern.init_config "staging" []).subnet_type = none :=
  default_machine_image_environment_independent "staging" [] rfl rfl

/-- C8: configuration resolution reads only the recognized keys: two kwargs
dictionaries agreeing on every recognized key (and differing arbitrarily in
keys outside that set) resolve to identical configurations and identical
construction outcomes, with no rejection of the unrecognized keys. -/
theorem unrecognized_keys_ignored
    (is_valid_cidr : Value → Bool) (environment_ctx project_ctx : Option String)
    (kw1 kw2 : Kwargs)
    (h : ∀ k ∈ CustomVpcPattern.recognized_keys, lookup? kw1 k = lookup? kw2 k) :
    CustomVpcPattern.init_config is_valid_cidr kw1 =
      CustomVpcPattern.init_config is_valid_cidr kw2 ∧
    CustomVpcPattern.construct is_valid_cidr environment_ctx project_ctx kw1 =
      CustomVpcPattern.construct is_valid_cidr environment_ctx project_ctx kw2 := by
  have hc := h "cidr" (by simp [CustomVpcPattern.recognized_keys])
  have hm := h "max_azs" (by simp [CustomVpcPattern.recognized_keys])
  have he := h "enable_internet" (by simp [CustomVpcPattern.recognized_keys])
  have hn := h "nat_gateways" (by simp [CustomVpcPattern.recognized_keys])
  have hs := h "enable_ssm" (by simp [CustomVpcPattern.recognized_keys])
  have hec := h "enable_ec2_connect" (by simp [CustomVpcPattern.recognized_keys])
  have ht := h "tags" (by simp [CustomVpcPattern.recognized_keys])
  have hinit : CustomVpcPattern.init_config is_valid_cidr kw1 =
      CustomVpcPattern.init_config is_valid_cidr kw2 := by
    simp only [CustomVpcPattern.init_config, dictGet, hc, hm, he, hn, hs, hec]
  refine ⟨hinit, ?_⟩
  simp only [CustomVpcPattern.construct, dictGet, hinit, ht]

/-- Witness for C8: adding an unrecognized key changes nothing. -/
theorem unrecognized_keys_ignored_witness :
    CustomVpcPattern.init_config (fun _ => true) [("max_azs", Value.int 3)] =
      CustomVpcPattern.init_config (fun _ => true)
        [("max_azs", Value.int 3), ("flux_capacitor", Value.str "yes")] ∧
    CustomVpcPattern.construct (fun _ => true) none none [("max_azs", Value.int 3)] =
      CustomVpcPattern.construct (fun _ => true) none none
        [("max_azs", Value.int 3), ("flux_capacitor", Value.str "yes")] :=
  unrecognized_keys_ignored (fun _ => true) none none _ _ (by decide)

/-- C9: configuration resolution is a pure function of the caller overrides
and the environment context: re-running the resolution step after a
successful construction reproduces exactly the configuration the construction
stored, for both the network pattern and the compute pattern. -/
theorem config_resolution_pure
    (is_valid_cidr : Value → Bool) (environment_ctx project_ctx : Option String)
    (kwargs : Kwargs) :
    (∀ events st,
       CustomVpcPattern.construct is_valid_cidr environment_ctx project_ctx kwargs =
         (events, .ok st) →
       CustomVpcPattern.init_config is_valid_cidr kwargs = .ok st.config) ∧
    (∀ st, EC2InstancePattern.construct environment_ctx kwargs = .ok st →
       EC2InstancePattern.init_config (contextOrDefault environment_ctx "development")
         kwargs = st.config) := by
  constructor
  · intro events st hcon
    simp only [CustomVpcPattern.construct] at hcon
    split at hcon
    · simp at hcon
    · rename_i config hinit
      split at hcon
      · simp at hcon
      · split at hcon
        · simp only [Prod.mk.injEq, Except.ok.injEq] at hcon
          rw [hinit, ← hcon.2]
        · simp at hcon
  · intro st hcon
    simp only [EC2InstancePattern.construct] at hcon
    split at hcon
    · simp at hcon
    · simp only [Except.ok.injEq] at hcon
      rw [← hcon]

/-- Witness for C9: both patterns at concrete inputs with no overrides. -/
theorem config_resolution_pure_witness :
    CustomVpcPattern.init_config (fun _ => true) [] =
      Except.ok (CustomVpcPattern.State.mk "development"
        ⟨Value.str "10.0.0.0/16", Value.int 2, Value.bool true, Value.int 1,
         Value.bool true, Value.bool true⟩
        [CustomVpcPattern.Event.createVpc (Value.str "10.0.0.0/16") (Value.int 2)
           (Value.int 1)
           [⟨"Public", SubnetType.PUBLIC, 24⟩,
            ⟨"Private", SubnetType.PRIVATE_WITH_EGRESS, 24⟩],
         CustomVpcPattern.Event.createSsmEndpoints,
         CustomVpcPattern.Event.createInstanceSecurityGroup true,
         CustomVpcPattern.Event.createInstanceRole true,
         CustomVpcPattern.Event.addTags
           [("Environment", "development"), ("ManagedBy", "CDK"),
            ("Pattern", "CustomVpcPattern"), ("Project", "default")],
         CustomVpcPattern.Event.createOutputs]).config ∧
    EC2InstancePattern.init_config (contextOrDefault none "development") [] =
      (EC2InstancePattern.State.mk "development"
        ⟨Value.instanceType InstanceClass.T3 InstanceSize.MICRO,
         Value.machineImage (MachineImg.amazonLinux AmazonLinuxGeneration.AMAZON_LINUX_2),
         none⟩ (Value.strMap [])).config :=
  ⟨(config_resolution_pure (fun _ => true) none none []).1 _ _ rfl,
   (config_resolution_pure (fun _ => true) none none []).2 _ rfl⟩

/-- Helper: `lookup?` misses every key not among the dictionary's keys. -/
theorem lookup?_eq_none_of_not_mem {β : Type} (d : List (String × β)) (k : String)
    (h : k ∉ d.map Prod.fst) : lookup? d k = none := by
  induction d with
  | nil => rfl
  | cons hd tl ih =>
    obtain ⟨k0, v0⟩ := hd
    simp only [List.map_cons, List.mem_cons, not_or] at h
    simp only [lookup?, if_neg h.1]
    exact ih h.2

/-- Helper: looking up a key after a dict item assignment. -/
theorem lookup?_dictInsert {β : Type} (d : List (String × β)) (key : String) (v : β)
    (k : String) :
    lookup? (dictInsert d key v) k = if k = key then some v else lookup? d k := by
  induction d with
  | nil => simp [dictInsert, lookup?]
  | cons hd tl ih =>
    obtain ⟨k0, v0⟩ := hd
    by_cases hk : key = k0
    · subst hk
      by_cases h : k = key <;> simp [dictInsert, lookup?, h]
    · by_cases h : k = k0
      · subst h
        have hne : k ≠ key := fun hc => hk hc.symm
        simp [dictInsert, hk, lookup?, hne]
      · simp [dictInsert, hk, lookup?, h, ih]

/-- Helper: one unfolding step of the `{**a, **b}` merge. -/
theorem mergeDicts_cons {β : Type} (a : List (String × β)) (k0 : String) (v0 : β)
    (tl : List (String × β)) :
    mergeDicts a ((k0, v0) :: tl) = mergeDicts (dictInsert a k0 v0) tl := rfl

/-- Helper: a key absent from the right dictionary is looked up in the left
one after a `{**a, **b}` merge. -/
theorem lookup?_mergeDicts_of_none {β : Type} (b : List (String × β)) (k : String) :
    ∀ a, lookup? b k = none → lookup? (mergeDicts a b) k = lookup? a k := by
  induction b with
  | nil => intro a _; rfl
  | cons hd tl ih =>
    obtain ⟨k0, v0⟩ := hd
    intro a h
    simp only [lookup?] at h
    by_cases hk : k = k0
    · rw [if_pos hk] at h; cases h
    · rw [if_neg hk] at h
      rw [mergeDicts_cons, ih _ h, lookup?_dictInsert, if_neg hk]

/-- Helper: a key present in the right dictionary (whose keys are unique, as
Python dict keys always are) wins a `{**a, **b}` merge. -/
theorem lookup?_mergeDicts_of_some {β : Type} (b : List (String × β)) (k : String)
    (v : β) :
    ∀ a, (b.map Prod.fst).Nodup → lookup? b k = some v →
      lookup? (mergeDicts a b) k = some v := by
  induction b with
  | nil => intro a _ h; cases h
  | cons hd tl ih =>
    obtain ⟨k0, v0⟩ := hd
    intro a hb h
    simp only [List.map_cons, List.nodup_cons] at hb
    simp only [lookup?] at h
    by_cases hk : k = k0
    · subst hk
      rw [if_pos rfl] at h
      injection h with hv
      subst hv
      rw [mergeDicts_cons,
        lookup?_mergeDicts_of_none tl k _ (lookup?_eq_none_of_not_mem tl k hb.1),
        lookup?_dictInsert, if_pos rfl]
    · rw [if_neg hk] at h
      rw [mergeDicts_cons]
      exact ih _ hb.2 h

/-- C5: the tag set applied to a created compute instance merges the built-in
defaults, the pattern-level tags and the call-level tags in increasing
precedence: a key present in all three layers gets the call-level value, and
a key present in the defaults and the pattern-level tags but not in the
call-level tags gets the pattern-level value. -/
theorem instance_tag_merge_precedence
    (stack_name node_id environment project : String)
    (additional_tags instance_tags : List (String × String)) (k : String)
    (ha : (additional_tags.map Prod.fst).Nodup)
    (hi : (instance_tags.map Prod.fst).Nodup) :
    (∀ v,
       (lookup? (EC2InstancePattern.default_instance_tags stack_name node_id
           environment project) k).isSome = true →
       (lookup? additional_tags k).isSome = true →
       lookup? instance_tags k = some v →
       lookup? (EC2InstancePattern.merged_instance_tags stack_name node_id environment
           project additional_tags instance_tags) k = some v) ∧
    (∀ v,
       (lookup? (EC2InstancePattern.default_instance_tags stack_name node_id
           environment project) k).isSome = true →
       lookup? additional_tags k = some v →
       lookup? instance_tags k = none →
       lookup? (EC2InstancePattern.merged_instance_tags stack_name node_id environment
           project additional_tags instance_tags) k = some v) := by
  constructor
  · intro v _ _ hil
    unfold EC2InstancePattern.merged_instance_tags
    exact lookup?_mergeDicts_of_some instance_tags k v _ hi hil
  · intro v _ hal hin
    unfold EC2InstancePattern.merged_instance_tags
    rw [lookup?_mergeDicts_of_none instance_tags k _ hin]
    exact lookup?_mergeDicts_of_some additional_tags k v _ ha hal

/-- Witness for C5 at concrete three-layer tag sets: "Environment" lives in
all three layers and gets the call-level value; "ManagedBy" lives only in the
defaults and the pattern-level layer and gets the pattern-level value. -/
theorem instance_tag_merge_precedence_witness :
    lookup? (EC2InstancePattern.merged_instance_tags "TestStack" "Compute" "development"
        "default" [("Environment", "staging"), ("ManagedBy", "ops")]
        [("Environment", "override")]) "Environment" = some "override" ∧
    lookup? (EC2InstancePattern.merged_instance_tags "TestStack" "Compute" "development"
        "default" [("Environment", "staging"), ("ManagedBy", "ops")]
        [("Environment", "override")]) "ManagedBy" = some "ops" :=
  ⟨(instance_tag_merge_precedence "TestStack" "Compute" "development" "default"
      [("Environment", "staging"), ("ManagedBy", "ops")] [("Environment", "override")]
      "Environment" (by decide) (by decide)).1 "override" (by decide) (by decide) rfl,
   (instance_tag_merge_precedence "TestStack" "Compute" "development" "default"
      [("Environment", "staging"), ("ManagedBy", "ops")] [("Environment", "override")]
      "ManagedBy" (by decide) (by decide)).2 "ops" (by decide) rfl rfl⟩

end AwsCdkPatterns
